import Mathlib

/-!
# FaceRecognition component (src/component/FaceRecognition.js)

A shallow embedding of the React component `FaceRecognition`: the
reference-set build (`loadLabeledImages`), the start-up sequence
(`loadModels`), the per-frame detection pass (`detectFaces`, started by
`handleVideoPlay`) and the greeting logic (`speakName`).

React state is explicit.  A value of `ComponentState` is what one invocation
of the function component sees in its `const`s; the closures created by that
invocation (`handleVideoPlay`, `detectFaces`, `speakName`) read that value.
The `set...` calls act on the current state held in `World.state`.
face-api.js, `fetch`, `Date.now`, the speech API and the video element are
outside the repository and enter as inputs (outcomes, clock readings, flags).
Console output is not modelled.
-/

namespace FaceRec

/-! ## Data model -/

/-- The own properties of the `lastSpokenTimes` object: name to timestamp (ms). -/
abbrev LastSpokenTimes := String → Option Int

/-- The object `{}` of `useState({})`. -/
def emptyTimes : LastSpokenTimes := fun _ => none

/-- Property names every plain object inherits from `Object.prototype`. For these
`obj[name]` is a function (or, for `__proto__`, an object) even without an own
property. -/
def objectPrototypeKeys : List String :=
  ["constructor", "__proto__", "hasOwnProperty", "isPrototypeOf",
   "propertyIsEnumerable", "toLocaleString", "toString", "valueOf",
   "__defineGetter__", "__defineSetter__", "__lookupGetter__", "__lookupSetter__"]

/-- What `lastSpokenTimes[name]` evaluates to. -/
inductive JSValue where
  | undefined
  | number (n : Int)
  | inherited
  deriving DecidableEq, Repr

/-- The property read `lastSpokenTimes[name]`: own property first, then the prototype. -/
def getProp (o : LastSpokenTimes) (name : String) : JSValue :=
  match o name with
  | some n => JSValue.number n
  | none => if name ∈ objectPrototypeKeys then JSValue.inherited else JSValue.undefined

/-- The object literal `{ ...prev, [name]: now }`. -/
def spreadSet (prev : LastSpokenTimes) (name : String) (now : Int) : LastSpokenTimes :=
  fun k => if k = name then some now else prev k

/-- `new faceapi.LabeledFaceDescriptors(label, descriptors)`; the descriptor
type `δ` is opaque to the component. -/
structure LabeledFaceDescriptors (δ : Type) where
  label : String
  descriptors : List δ
  deriving DecidableEq, Repr

/-- The four `useState` cells of the component. -/
structure ComponentState (δ : Type) where
  modelsLoaded : Bool
  error : Option String
  labeledFaceDescriptors : Option (List (LabeledFaceDescriptors δ))
  lastSpokenTimes : LastSpokenTimes

/-- The state of the first render: `false`, `null`, `null`, `{}`. -/
def initialState (δ : Type) : ComponentState δ :=
  { modelsLoaded := false, error := none, labeledFaceDescriptors := none,
    lastSpokenTimes := emptyTimes }

/-- One `window.speechSynthesis.speak(utterance)` call: the utterance text, with the
name and the clock reading of the `speakName` call that made it. -/
structure Notification where
  name : String
  time : Int
  text : String
  deriving DecidableEq, Repr

/-- Current React state together with the observable effects so far. -/
structure World (δ : Type) where
  state : ComponentState δ
  /-- calls of `speechSynthesis.speak`, oldest first -/
  spoken : List Notification
  /-- arguments of the calls of `speakName`, oldest first -/
  speakNameCalls : List String
  /-- object URLs created and not revoked, as (label, image index) -/
  liveObjectURLs : List (String × Nat)
  /-- number of calls of `startVideo` -/
  startVideoCalls : Nat

/-- The world before anything has run. -/
def initialWorld (δ : Type) : World δ :=
  { state := initialState δ, spoken := [], speakNameCalls := [],
    liveObjectURLs := [], startVideoCalls := 0 }

/-! ## speakName -/

/-- `ONE_MINUTE`. -/
def ONE_MINUTE : Int := 60000

/-- Lower-casing of one character as far as it can produce an ASCII letter:
`A`..`Z`, the Kelvin sign U+212A (to `k`), and U+0130 (to `i` followed by U+0307).
Every other character is kept; its real lower-case form is never an ASCII letter. -/
def lowerChar (c : Char) : List Char :=
  if 65 ≤ c.toNat ∧ c.toNat ≤ 90 then [Char.ofNat (c.toNat + 32)]
  else if c.toNat = 0x212A then ['k']
  else if c.toNat = 0x0130 then ['i', Char.ofNat 0x0307]
  else [c]

/-- Lower-casing of a list of characters. -/
def lowerChars : List Char → List Char
  | [] => []
  | c :: cs => lowerChar c ++ lowerChars cs

/-- `name.toLowerCase()`. -/
def toLowerCase (name : String) : String := String.mk (lowerChars name.data)

/-- The text assigned to `utterance.text`. -/
def greetingText (name : String) : String :=
  if toLowerCase name = "badhusha" then "Hi sir, how are you?"
  else if toLowerCase name = "abhishek" then "Hi Abhi, how are you? How can I help you today?"
  else "Hello " ++ name ++ ", welcome!"

/-- `now - (lastSpokenTimes[name] || 0)`; `none` is NaN. -/
def timeElapsed (lastSpokenTimes : LastSpokenTimes) (now : Int) (name : String) : Option Int :=
  match getProp lastSpokenTimes name with
  | JSValue.undefined => some (now - 0)
  | JSValue.number n => some (now - (if n = 0 then 0 else n))
  | JSValue.inherited => none

/-- `timeElapsed > ONE_MINUTE`; a comparison with NaN is false. -/
def elapsedExceeds (e : Option Int) : Bool :=
  match e with
  | some t => decide (t > ONE_MINUTE)
  | none => false

/-- `speakName(name)` as created by the render that saw `captured`.  It reads
`lastSpokenTimes` from `captured`; `setLastSpokenTimes(prev => ...)` acts on the
current state.  `speechAvailable` is `'speechSynthesis' in window`, `now` is `Date.now()`. -/
def speakName {δ : Type} (captured : ComponentState δ) (speechAvailable : Bool) (now : Int)
    (name : String) (w : World δ) : World δ :=
  let w1 := { w with speakNameCalls := w.speakNameCalls ++ [name] }
  if speechAvailable then
    if elapsedExceeds (timeElapsed captured.lastSpokenTimes now name) then
      { w1 with
        spoken := w1.spoken ++ [{ name := name, time := now, text := greetingText name }]
        state := { w1.state with
          lastSpokenTimes := spreadSet w1.state.lastSpokenTimes name now } }
    else w1
  else w1

/-! ## The detection pass -/

/-- A JavaScript number: a finite double (read as the exact rational it stands for),
NaN, or one of the infinities. -/
inductive JSNumber where
  | finite (q : ℚ)
  | nan
  | posInfinity
  | negInfinity
  deriving DecidableEq

/-- The operator `<` on two numbers; false as soon as one operand is NaN. -/
def JSNumber.lt : JSNumber → JSNumber → Bool
  | JSNumber.finite a, JSNumber.finite b => decide (a < b)
  | JSNumber.finite _, JSNumber.posInfinity => true
  | JSNumber.negInfinity, JSNumber.finite _ => true
  | JSNumber.negInfinity, JSNumber.posInfinity => true
  | _, _ => false

/-- The number the literal `0.6` denotes: the double nearest to 6/10, which is
5404319552844595 / 2^53 (just below 6/10). -/
def zeroPointSix : JSNumber := JSNumber.finite (5404319552844595 / 9007199254740992)

/-- The `FaceMatch` returned by `faceMatcher.findBestMatch`: a label and a distance. -/
structure FaceMatch where
  label : String
  distance : JSNumber
  deriving DecidableEq

/-- One element of `resizedDetections`: its best match, and the reading `Date.now()`
gives if `speakName` runs for it. -/
structure Detection where
  bestMatch : FaceMatch
  clock : Int
  deriving DecidableEq

/-- The detections of one video frame, in `forEach` order. -/
abbrev Frame := List Detection

/-- The test `bestMatch.label !== 'unknown' && bestMatch.distance < 0.6`. -/
def eligible (m : FaceMatch) : Bool :=
  decide (m.label ≠ "unknown") && JSNumber.lt m.distance zeroPointSix

/-- The callback passed to `resizedDetections.forEach`. -/
def forEachCallback {δ : Type} (captured : ComponentState δ) (speechAvailable : Bool)
    (detection : Detection) (w : World δ) : World δ :=
  if eligible detection.bestMatch then
    speakName captured speechAvailable detection.clock detection.bestMatch.label w
  else w

/-- One run of `detectFaces` on one frame, given the best matches of the faces
`detectAllFaces` found in it; drawing on the canvas is left out.  The closing
`requestAnimationFrame(detectFaces)` is the step to the next frame in `handleVideoPlay`. -/
def detectFaces {δ : Type} (captured : ComponentState δ) (speechAvailable : Bool)
    (frame : Frame) (w : World δ) : World δ :=
  if captured.modelsLoaded && captured.labeledFaceDescriptors.isSome then
    frame.foldl (fun acc d => forEachCallback captured speechAvailable d acc) w
  else w

/-- `handleVideoPlay` as created by the render that saw `captured`, followed through the
given frames.  `refsPresent` says that `videoRef.current` and `canvasRef.current` are set.
Every run of `detectFaces` is the same closure, so it keeps reading `captured`. -/
def handleVideoPlay {δ : Type} (captured : ComponentState δ) (refsPresent : Bool)
    (speechAvailable : Bool) (frames : List Frame) (w : World δ) : World δ :=
  if !captured.modelsLoaded then w
  else if !refsPresent then w
  else frames.foldl (fun acc f => detectFaces captured speechAvailable f acc) w

/-! ## Building the reference set -/

/-- What happens to candidate image `i` of a label inside the inner `try`. -/
inductive ImageOutcome (δ : Type) where
  /-- `fetch` rejects -/
  | fetchThrows
  /-- `response.ok` is false -/
  | notFound
  /-- `response.blob()` rejects -/
  | blobThrows
  /-- `faceapi.fetchImage(imageUrl)` rejects -/
  | decodeThrows
  /-- the `detectSingleFace` chain rejects -/
  | detectThrows
  /-- the detection is `undefined` -/
  | noFace
  /-- the detection carries this descriptor -/
  | descriptor (d : δ)
  deriving DecidableEq, Repr

/-- The array literal `['badhusha','abhishek']`. -/
def labels : List String := ["badhusha", "abhishek"]

/-- The values of `i` in `for (let i = 1; i <= 2; i++)`. -/
def imageIndices : List Nat := [1, 2]

/-- One iteration of the inner loop, on the pair (`descriptors`, live object URLs).
The object URL of image `i` of `label` is named `(label, i)`.  A rejection after
`URL.createObjectURL` jumps to the `catch`, past `URL.revokeObjectURL`. -/
def processImage {δ : Type} (label : String) (i : Nat) (o : ImageOutcome δ)
    (acc : List δ × List (String × Nat)) : List δ × List (String × Nat) :=
  match o with
  | ImageOutcome.fetchThrows => acc
  | ImageOutcome.notFound => acc
  | ImageOutcome.blobThrows => acc
  | ImageOutcome.decodeThrows => (acc.1, acc.2 ++ [(label, i)])
  | ImageOutcome.detectThrows => (acc.1, acc.2 ++ [(label, i)])
  | ImageOutcome.noFace => (acc.1, (acc.2 ++ [(label, i)]).erase (label, i))
  | ImageOutcome.descriptor d => (acc.1 ++ [d], (acc.2 ++ [(label, i)]).erase (label, i))

/-- The body of `for (const label of labels)`, on the pair (`descriptions`, live URLs). -/
def processLabel {δ : Type} (outcome : String → Nat → ImageOutcome δ) (label : String)
    (acc : List (LabeledFaceDescriptors δ) × List (String × Nat)) :
    List (LabeledFaceDescriptors δ) × List (String × Nat) :=
  let r := imageIndices.foldl (fun a i => processImage label i (outcome label i) a) ([], acc.2)
  if r.1.length > 0 then (acc.1 ++ [{ label := label, descriptors := r.1 }], r.2)
  else (acc.1, r.2)

/-- The outer `try` block of `loadLabeledImages` over the given labels: the world it
leaves, and `Except.error msg` if it ends in `throw new Error(msg)`. -/
def loadLabeledImagesTry {δ : Type} (ls : List String) (outcome : String → Nat → ImageOutcome δ)
    (w : World δ) : World δ × Except String Unit :=
  let r := ls.foldl (fun a l => processLabel outcome l a) ([], w.liveObjectURLs)
  let w1 := { w with liveObjectURLs := r.2 }
  if r.1.length > 0 then
    ({ w1 with state := { w1.state with labeledFaceDescriptors := some r.1 } }, Except.ok ())
  else (w1, Except.error "No valid face descriptors were created")

/-- `loadLabeledImages` over the given labels, with its `catch`: the world it leaves and
how the call completes for the caller. -/
def loadLabeledImagesFor {δ : Type} (ls : List String)
    (outcome : String → Nat → ImageOutcome δ) (w : World δ) : World δ × Except String Unit :=
  match loadLabeledImagesTry ls outcome w with
  | (w1, Except.ok u) => (w1, Except.ok u)
  | (w1, Except.error _) =>
    ({ w1 with state := { w1.state with error := some "Failed to load face recognition data" } },
      Except.ok ())

/-- `loadLabeledImages`. -/
def loadLabeledImages {δ : Type} (outcome : String → Nat → ImageOutcome δ) (w : World δ) :
    World δ × Except String Unit :=
  loadLabeledImagesFor labels outcome w

/-! ## Start-up -/

/-- Whether each `faceapi.nets.*.loadFromUri('/models')` resolves. -/
structure NetOutcomes where
  ssdMobilenetv1 : Bool
  faceLandmark68Net : Bool
  faceRecognitionNet : Bool
  faceExpressionNet : Bool
  deriving DecidableEq, Repr

/-- A call of `startVideo`. -/
def startVideo {δ : Type} (w : World δ) : World δ :=
  { w with startVideoCalls := w.startVideoCalls + 1 }

/-- The `catch` of `loadModels`. -/
def loadModelsCatch {δ : Type} (w : World δ) : World δ :=
  { w with state := { w.state with error := some "Failed to load face recognition models" } }

/-- `loadModels` over the given labels. -/
def loadModelsFor {δ : Type} (ls : List String) (nets : NetOutcomes)
    (outcome : String → Nat → ImageOutcome δ) (w : World δ) : World δ :=
  if !nets.ssdMobilenetv1 then loadModelsCatch w
  else if !nets.faceLandmark68Net then loadModelsCatch w
  else if !nets.faceRecognitionNet then loadModelsCatch w
  else if !nets.faceExpressionNet then loadModelsCatch w
  else
    match loadLabeledImagesFor ls outcome w with
    | (w1, Except.ok _) =>
      startVideo { w1 with state := { w1.state with modelsLoaded := true } }
    | (w1, Except.error _) => loadModelsCatch w1

/-- `loadModels`, run once by the `useEffect`. -/
def loadModels {δ : Type} (nets : NetOutcomes) (outcome : String → Nat → ImageOutcome δ)
    (w : World δ) : World δ :=
  loadModelsFor labels nets outcome w

/-- All four nets load. -/
def allNetsLoaded : NetOutcomes :=
  { ssdMobilenetv1 := true, faceLandmark68Net := true, faceRecognitionNet := true,
    faceExpressionNet := true }

/-- The closing test `if (error) return <div className="error">...`: whether the render
reaches the `<video>` element (an empty string is falsy). -/
def rendersVideo {δ : Type} (s : ComponentState δ) : Bool :=
  match s.error with
  | none => true
  | some e => decide (e = "")

/-! ## The reference set in the words of the specification -/

/-- The descriptor an image yields, if any. -/
def descriptorOf {δ : Type} : ImageOutcome δ → Option δ
  | ImageOutcome.descriptor d => some d
  | _ => none

/-- The descriptors of a label: those its candidate images yield, in image-index order. -/
def descriptorsOfLabel {δ : Type} (outcome : String → Nat → ImageOutcome δ) (label : String) :
    List δ :=
  imageIndices.filterMap (fun i => descriptorOf (outcome label i))

/-- The reference set of the specification: the labels with at least one descriptor, in
label order, each with its descriptors; a label without descriptors is left out. -/
def referenceSetSpec {δ : Type} (ls : List String) (outcome : String → Nat → ImageOutcome δ) :
    List (LabeledFaceDescriptors δ) :=
  ls.filterMap (fun l =>
    if (descriptorsOfLabel outcome l).isEmpty then none
    else some { label := l, descriptors := descriptorsOfLabel outcome l })

/-! ## Concrete inputs -/

/-- The state seen by the render whose `handleVideoPlay` starts the loop: models and
reference data loaded, nobody greeted yet. -/
def readyState : ComponentState Nat :=
  { modelsLoaded := true, error := none,
    labeledFaceDescriptors := some [{ label := "badhusha", descriptors := [0] }],
    lastSpokenTimes := emptyTimes }

/-- Two frames 30000 ms apart, each with one detection matched to "badhusha" at
distance 0.4. -/
def twoFrames : List Frame :=
  [[{ bestMatch := { label := "badhusha", distance := JSNumber.finite 0.4 }, clock := 1700000000000 }],
   [{ bestMatch := { label := "badhusha", distance := JSNumber.finite 0.4 }, clock := 1700000030000 }]]

/-- A frame with four detections: "badhusha" at 0.4, "unknown" at 0.7, "abhishek" at
exactly the double 0.6, and "abhishek" at NaN. -/
def mixedFrame : Frame :=
  [{ bestMatch := { label := "badhusha", distance := JSNumber.finite 0.4 }, clock := 5 },
   { bestMatch := { label := "unknown", distance := JSNumber.finite 0.7 }, clock := 6 },
   { bestMatch := { label := "abhishek", distance := zeroPointSix }, clock := 7 },
   { bestMatch := { label := "abhishek", distance := JSNumber.nan }, clock := 8 }]

/-- Outcomes for the labels "a" and "b": both images of "a" yield descriptors (11 and 12),
no image of "b" is found. -/
def outcomeAB : String → Nat → ImageOutcome Nat :=
  fun l i => if l = "a" then ImageOutcome.descriptor (10 + i) else ImageOutcome.notFound

/-- Image 1 of "badhusha" is fetched but cannot be decoded (`faceapi.fetchImage`
rejects); every other image yields a descriptor. -/
def outcomeUndecodable : String → Nat → ImageOutcome Nat :=
  fun l i =>
    if l = "badhusha" ∧ i = 1 then ImageOutcome.decodeThrows else ImageOutcome.descriptor i

/-! ## speakName: lemmas -/

theorem timeElapsed_of_not_inherited (t : LastSpokenTimes) (now : Int) (name : String)
    (hname : name ∉ objectPrototypeKeys) :
    timeElapsed t now name = some (now - (t name).getD 0) := by
  unfold timeElapsed getProp
  cases h : t name with
  | none => simp [hname]
  | some n =>
    by_cases hn : n = 0
    · simp [hn]
    · simp [hn]

theorem speakName_spoken_of_exceeds {δ : Type} (captured : ComponentState δ) (now : Int)
    (name : String) (w : World δ)
    (h : elapsedExceeds (timeElapsed captured.lastSpokenTimes now name) = true) :
    (speakName captured true now name w).spoken
        = w.spoken ++ [{ name := name, time := now, text := greetingText name }]
      ∧ (speakName captured true now name w).state.lastSpokenTimes
        = spreadSet w.state.lastSpokenTimes name now := by
  simp [speakName, h]

theorem speakName_of_not_exceeds {δ : Type} (captured : ComponentState δ) (avail : Bool)
    (now : Int) (name : String) (w : World δ)
    (h : (avail && elapsedExceeds (timeElapsed captured.lastSpokenTimes now name)) = false) :
    (speakName captured avail now name w).spoken = w.spoken
      ∧ (speakName captured avail now name w).state = w.state := by
  cases avail <;> simp_all [speakName]

/-! ## Cooldown decision -/

/-- C2, as amended: for a name that is not a member of `Object.prototype`, with speech
synthesis available and `last` the stored timestamp read by `speakName` (0 without one),
`speakName` speaks exactly when `now - last > 60000`: then one notification for `name` at
`now` is appended, otherwise the log of notifications is unchanged. -/
theorem speakName_fires_iff_elapsed_gt {δ : Type} (captured : ComponentState δ) (now : Int)
    (name : String) (w : World δ) (hname : name ∉ objectPrototypeKeys) :
    (now - (captured.lastSpokenTimes name).getD 0 > 60000 →
        (speakName captured true now name w).spoken
          = w.spoken ++ [{ name := name, time := now, text := greetingText name }]) ∧
    (¬ now - (captured.lastSpokenTimes name).getD 0 > 60000 →
        (speakName captured true now name w).spoken = w.spoken) := by
  constructor
  · intro h
    refine (speakName_spoken_of_exceeds captured now name w ?_).1
    rw [timeElapsed_of_not_inherited _ _ _ hname]
    simpa [elapsedExceeds, ONE_MINUTE] using h
  · intro h
    refine (speakName_of_not_exceeds captured true now name w ?_).1
    rw [timeElapsed_of_not_inherited _ _ _ hname]
    simpa [elapsedExceeds, ONE_MINUTE] using h

/-- Witness for C2: last greeting of "X" at 1000000, now 1060001. -/
theorem speakName_fires_iff_elapsed_gt_witness :
    (speakName { initialState Nat with lastSpokenTimes := spreadSet emptyTimes "X" 1000000 }
        true 1060001 "X" (initialWorld Nat)).spoken
      = [{ name := "X", time := 1060001, text := "Hello X, welcome!" }] := by
  have h := (speakName_fires_iff_elapsed_gt
    { initialState Nat with lastSpokenTimes := spreadSet emptyTimes "X" 1000000 }
    1060001 "X" (initialWorld Nat) (by decide)).1 (by decide)
  simpa [initialWorld] using h

/-- Counterexample to C2 as stated: exactly 60000 ms after the stored timestamp of "X"
(1000000, now 1060000) `speakName` does not speak; and for the name "constructor", which no
object stores but every object inherits, it does not speak however late it is. -/
theorem speakName_silent_at_exact_window :
    ((1060000 : Int) - ((spreadSet emptyTimes "X" 1000000) "X").getD 0 ≥ 60000 ∧
      (speakName { initialState Nat with lastSpokenTimes := spreadSet emptyTimes "X" 1000000 }
        true 1060000 "X" (initialWorld Nat)).spoken = []) ∧
    ((1060000 : Int) - (emptyTimes "constructor").getD 0 ≥ 60000 ∧
      (speakName (initialState Nat) true 1060000 "constructor" (initialWorld Nat)).spoken
        = []) := by
  decide

/-- C3, as amended: for a name without a stored timestamp (and not a member of
`Object.prototype`), `speakName` speaks and records `now` for the name exactly when
`now > 60000`; at `now ≤ 60000` it neither speaks nor changes the state. -/
theorem speakName_first_match {δ : Type} (captured : ComponentState δ) (now : Int)
    (name : String) (w : World δ) (hnone : captured.lastSpokenTimes name = none)
    (hname : name ∉ objectPrototypeKeys) :
    (60000 < now →
        (speakName captured true now name w).spoken
          = w.spoken ++ [{ name := name, time := now, text := greetingText name }] ∧
        (speakName captured true now name w).state.lastSpokenTimes name = some now) ∧
    (now ≤ 60000 →
        (speakName captured true now name w).spoken = w.spoken ∧
        (speakName captured true now name w).state = w.state) := by
  have he : timeElapsed captured.lastSpokenTimes now name = some now := by
    rw [timeElapsed_of_not_inherited _ _ _ hname, hnone]; simp
  constructor
  · intro h
    have hx : elapsedExceeds (timeElapsed captured.lastSpokenTimes now name) = true := by
      rw [he]; simpa [elapsedExceeds, ONE_MINUTE] using h
    obtain ⟨h1, h2⟩ := speakName_spoken_of_exceeds captured now name w hx
    exact ⟨h1, by rw [h2]; simp [spreadSet]⟩
  · intro h
    refine speakName_of_not_exceeds captured true now name w ?_
    rw [he]; simpa [elapsedExceeds, ONE_MINUTE] using h

/-- Witness for C3: empty state, "X" first matched at 61000. -/
theorem speakName_first_match_witness :
    (speakName (initialState Nat) true 61000 "X" (initialWorld Nat)).spoken
        = [{ name := "X", time := 61000, text := "Hello X, welcome!" }] ∧
      (speakName (initialState Nat) true 61000 "X" (initialWorld Nat)).state.lastSpokenTimes "X"
        = some 61000 := by
  have h := (speakName_first_match (initialState Nat) 61000 "X" (initialWorld Nat) rfl
    (by decide)).1 (by decide)
  simpa [initialWorld] using h

/-- Counterexample to C3 as stated: with an empty state, `speakName("X")` at time 0 does
not speak and stores no timestamp for "X". -/
theorem speakName_first_match_at_zero_silent :
    (speakName (initialState Nat) true 0 "X" (initialWorld Nat)).spoken = [] ∧
      (speakName (initialState Nat) true 0 "X" (initialWorld Nat)).state.lastSpokenTimes "X"
        = none := by
  decide

/-- C4: a call of `speakName` either leaves the log of notifications and the state as they
were, or appends exactly one notification and then the new `lastSpokenTimes` maps `name`
to `now` and agrees with the previous one on every other key; nothing else in the state
changes. -/
theorem speakName_frame {δ : Type} (captured : ComponentState δ) (speechAvailable : Bool)
    (now : Int) (name : String) (w : World δ) :
    ((speakName captured speechAvailable now name w).spoken = w.spoken ∧
      (speakName captured speechAvailable now name w).state = w.state) ∨
    ((speakName captured speechAvailable now name w).spoken
        = w.spoken ++ [{ name := name, time := now, text := greetingText name }] ∧
      (speakName captured speechAvailable now name w).state.lastSpokenTimes name = some now ∧
      (∀ k, k ≠ name →
        (speakName captured speechAvailable now name w).state.lastSpokenTimes k
          = w.state.lastSpokenTimes k) ∧
      (speakName captured speechAvailable now name w).state.modelsLoaded
        = w.state.modelsLoaded ∧
      (speakName captured speechAvailable now name w).state.error = w.state.error ∧
      (speakName captured speechAvailable now name w).state.labeledFaceDescriptors
        = w.state.labeledFaceDescriptors) := by
  cases hc : (speechAvailable && elapsedExceeds (timeElapsed captured.lastSpokenTimes now name))
  · exact Or.inl (speakName_of_not_exceeds captured speechAvailable now name w hc)
  · right
    simp only [Bool.and_eq_true] at hc
    obtain ⟨ha, hx⟩ := hc
    subst ha
    refine ⟨(speakName_spoken_of_exceeds captured now name w hx).1, ?_, ?_, ?_, ?_, ?_⟩
    · simp [speakName, hx, spreadSet]
    · intro k hk
      simp [speakName, hx, spreadSet, hk]
    · simp [speakName, hx]
    · simp [speakName, hx]
    · simp [speakName, hx]

/-! ## Greeting text -/

/-- C6, as amended: "badhusha" gets "Hi sir, how are you?", and so does every name whose
lower-case form is "badhusha"; a name whose lower-case form is neither "badhusha" nor
"abhishek" gets "Hello " ++ name ++ ", welcome!" with the name unchanged. -/
theorem greetingText_selection (name : String) :
    greetingText "badhusha" = "Hi sir, how are you?" ∧
    (toLowerCase name = "badhusha" → greetingText name = "Hi sir, how are you?") ∧
    (toLowerCase name ≠ "badhusha" → toLowerCase name ≠ "abhishek" →
      greetingText name = "Hello " ++ name ++ ", welcome!") := by
  refine ⟨by decide, ?_, ?_⟩
  · intro h
    simp [greetingText, h]
  · intro h1 h2
    simp [greetingText, h1, h2]

/-- Witness for C6: "Alice" is greeted with the generic text. -/
theorem greetingText_selection_witness : greetingText "Alice" = "Hello Alice, welcome!" :=
  (greetingText_selection "Alice").2.2 (by decide) (by decide)

/-- Counterexample to C6 as stated: "Badhusha" is neither of the labels "badhusha" and
"abhishek", yet its greeting is the special one, not "Hello Badhusha, welcome!". -/
theorem greetingText_ignores_case :
    "Badhusha" ≠ "badhusha" ∧ "Badhusha" ≠ "abhishek" ∧
      greetingText "Badhusha" = "Hi sir, how are you?" ∧
      greetingText "Badhusha" ≠ "Hello " ++ "Badhusha" ++ ", welcome!" := by
  decide

/-! ## The admission gate of the detection pass -/

theorem eligible_iff (m : FaceMatch) :
    eligible m = true ↔ (m.label ≠ "unknown" ∧ JSNumber.lt m.distance zeroPointSix = true) := by
  simp [eligible]

theorem speakName_calls {δ : Type} (captured : ComponentState δ) (avail : Bool) (now : Int)
    (name : String) (w : World δ) :
    (speakName captured avail now name w).speakNameCalls = w.speakNameCalls ++ [name] := by
  unfold speakName
  split_ifs <;> rfl

theorem foldl_forEachCallback_calls {δ : Type} (captured : ComponentState δ) (avail : Bool)
    (frame : Frame) :
    ∀ w : World δ,
      (frame.foldl (fun acc d => forEachCallback captured avail d acc) w).speakNameCalls
        = w.speakNameCalls
          ++ (frame.filter (fun d => eligible d.bestMatch)).map (fun d => d.bestMatch.label) := by
  induction frame with
  | nil => intro w; simp
  | cons d ds ih =>
    intro w
    rw [List.foldl_cons, ih]
    by_cases he : eligible d.bestMatch = true
    · simp [forEachCallback, he, speakName_calls, List.filter_cons]
    · simp [forEachCallback, he, List.filter_cons]

theorem detectFaces_calls {δ : Type} (captured : ComponentState δ) (avail : Bool)
    (frame : Frame) (w : World δ) :
    (detectFaces captured avail frame w).speakNameCalls
      = w.speakNameCalls ++
        (if captured.modelsLoaded && captured.labeledFaceDescriptors.isSome then
          (frame.filter (fun d => eligible d.bestMatch)).map (fun d => d.bestMatch.label)
        else []) := by
  unfold detectFaces
  split_ifs
  · exact foldl_forEachCallback_calls captured avail frame w
  · simp

theorem foldl_detectFaces_calls {δ : Type} (captured : ComponentState δ) (avail : Bool)
    (hguard : (captured.modelsLoaded && captured.labeledFaceDescriptors.isSome) = true)
    (frames : List Frame) :
    ∀ w : World δ,
      (frames.foldl (fun acc f => detectFaces captured avail f acc) w).speakNameCalls
        = w.speakNameCalls ++
          (frames.map (fun f =>
            (f.filter (fun d => eligible d.bestMatch)).map (fun d => d.bestMatch.label))).flatten := by
  induction frames with
  | nil => intro w; simp
  | cons f fs ih =>
    intro w
    rw [List.foldl_cons, ih, detectFaces_calls, if_pos hguard]
    simp [List.append_assoc]

theorem speakName_spoken_mem {δ : Type} (captured : ComponentState δ) (avail : Bool)
    (now : Int) (name : String) (w : World δ) (n : Notification)
    (hn : n ∈ (speakName captured avail now name w).spoken) :
    n ∈ w.spoken ∨ n.name = name := by
  cases hc : (avail && elapsedExceeds (timeElapsed captured.lastSpokenTimes now name))
  · rw [(speakName_of_not_exceeds captured avail now name w hc).1] at hn
    exact Or.inl hn
  · simp only [Bool.and_eq_true] at hc
    obtain ⟨ha, hx⟩ := hc
    subst ha
    rw [(speakName_spoken_of_exceeds captured now name w hx).1] at hn
    rcases List.mem_append.1 hn with h1 | h1
    · exact Or.inl h1
    · right
      simp at h1
      rw [h1]

theorem forEachCallback_spoken_mem {δ : Type} (captured : ComponentState δ) (avail : Bool)
    (d : Detection) (w : World δ) (n : Notification)
    (hn : n ∈ (forEachCallback captured avail d w).spoken) :
    n ∈ w.spoken ∨ (n.name = d.bestMatch.label ∧ eligible d.bestMatch = true) := by
  unfold forEachCallback at hn
  by_cases he : eligible d.bestMatch = true
  · rw [if_pos he] at hn
    rcases speakName_spoken_mem _ _ _ _ _ _ hn with h | h
    · exact Or.inl h
    · exact Or.inr ⟨h, he⟩
  · rw [if_neg he] at hn
    exact Or.inl hn

theorem foldl_forEachCallback_spoken_mem {δ : Type} (captured : ComponentState δ)
    (avail : Bool) (n : Notification) (frame : Frame) :
    ∀ w : World δ,
      n ∈ (frame.foldl (fun acc d => forEachCallback captured avail d acc) w).spoken →
      n ∈ w.spoken ∨ ∃ d ∈ frame, n.name = d.bestMatch.label ∧ eligible d.bestMatch = true := by
  induction frame with
  | nil => intro w h; exact Or.inl h
  | cons d ds ih =>
    intro w h
    rw [List.foldl_cons] at h
    rcases ih _ h with h1 | ⟨e, he, h2⟩
    · rcases forEachCallback_spoken_mem _ _ _ _ _ h1 with h3 | h3
      · exact Or.inl h3
      · exact Or.inr ⟨d, List.mem_cons_self _ _, h3⟩
    · exact Or.inr ⟨e, List.mem_cons_of_mem _ he, h2⟩

theorem detectFaces_spoken_mem {δ : Type} (captured : ComponentState δ) (avail : Bool)
    (n : Notification) (frame : Frame) (w : World δ)
    (h : n ∈ (detectFaces captured avail frame w).spoken) :
    n ∈ w.spoken ∨ ∃ d ∈ frame, n.name = d.bestMatch.label ∧ eligible d.bestMatch = true := by
  unfold detectFaces at h
  split_ifs at h
  · exact foldl_forEachCallback_spoken_mem captured avail n frame w h
  · exact Or.inl h

theorem foldl_detectFaces_spoken_mem {δ : Type} (captured : ComponentState δ) (avail : Bool)
    (n : Notification) (frames : List Frame) :
    ∀ w : World δ,
      n ∈ (frames.foldl (fun acc f => detectFaces captured avail f acc) w).spoken →
      n ∈ w.spoken ∨
        ∃ f ∈ frames, ∃ d ∈ f, n.name = d.bestMatch.label ∧ eligible d.bestMatch = true := by
  induction frames with
  | nil => intro w h; exact Or.inl h
  | cons f fs ih =>
    intro w h
    rw [List.foldl_cons] at h
    rcases ih _ h with h1 | ⟨g, hg, h2⟩
    · rcases detectFaces_spoken_mem _ _ _ _ _ h1 with h3 | h3
      · exact Or.inl h3
      · exact Or.inr ⟨f, List.mem_cons_self _ _, h3⟩
    · exact Or.inr ⟨g, List.mem_cons_of_mem _ hg, h2⟩

/-- C5: for a detection, the `forEach` callback calls `speakName` with the best match's
label exactly when the label is not "unknown" and the distance is below 0.6 (for a finite
distance `q`: `q` below the double 0.6; never for NaN), and otherwise does nothing.  A run
of `detectFaces` that passes its guard, and so a whole detection loop, calls `speakName`
with the labels of exactly those detections of each frame, in order; and every
notification a loop adds is for the label of such a detection. -/
theorem speakName_invoked_iff_eligible {δ : Type} (captured : ComponentState δ)
    (speechAvailable : Bool) (detection : Detection) (w : World δ) :
    ((forEachCallback captured speechAvailable detection w).speakNameCalls
        = w.speakNameCalls ++ [detection.bestMatch.label]
      ↔ (detection.bestMatch.label ≠ "unknown" ∧
          JSNumber.lt detection.bestMatch.distance zeroPointSix = true)) ∧
    (¬ (detection.bestMatch.label ≠ "unknown" ∧
          JSNumber.lt detection.bestMatch.distance zeroPointSix = true) →
      forEachCallback captured speechAvailable detection w = w) ∧
    (∀ q : ℚ, detection.bestMatch.distance = JSNumber.finite q →
      ((forEachCallback captured speechAvailable detection w).speakNameCalls
          = w.speakNameCalls ++ [detection.bestMatch.label]
        ↔ (detection.bestMatch.label ≠ "unknown" ∧
            q < 5404319552844595 / 9007199254740992))) ∧
    (detection.bestMatch.distance = JSNumber.nan →
      forEachCallback captured speechAvailable detection w = w) ∧
    (∀ frame : Frame,
      (detectFaces captured speechAvailable frame w).speakNameCalls
        = w.speakNameCalls ++
          (if captured.modelsLoaded && captured.labeledFaceDescriptors.isSome then
            (frame.filter (fun d => decide (d.bestMatch.label ≠ "unknown") &&
                JSNumber.lt d.bestMatch.distance zeroPointSix)).map
              (fun d => d.bestMatch.label)
          else [])) ∧
    (∀ frames : List Frame,
      captured.modelsLoaded = true → captured.labeledFaceDescriptors.isSome = true →
      (handleVideoPlay captured true speechAvailable frames w).speakNameCalls
        = w.speakNameCalls ++
          (frames.map (fun f =>
            (f.filter (fun d => decide (d.bestMatch.label ≠ "unknown") &&
                JSNumber.lt d.bestMatch.distance zeroPointSix)).map
              (fun d => d.bestMatch.label))).flatten) ∧
    (∀ (refsPresent : Bool) (frames : List Frame) (n : Notification),
      n ∈ (handleVideoPlay captured refsPresent speechAvailable frames w).spoken →
      n ∈ w.spoken ∨
        ∃ f ∈ frames, ∃ d ∈ f, n.name = d.bestMatch.label ∧
          d.bestMatch.label ≠ "unknown" ∧
          JSNumber.lt d.bestMatch.distance zeroPointSix = true) := by
  have hiff : (forEachCallback captured speechAvailable detection w).speakNameCalls
        = w.speakNameCalls ++ [detection.bestMatch.label]
      ↔ (detection.bestMatch.label ≠ "unknown" ∧
          JSNumber.lt detection.bestMatch.distance zeroPointSix = true) := by
    rw [← eligible_iff]
    unfold forEachCallback
    by_cases he : eligible detection.bestMatch = true
    · simp [he, speakName_calls]
    · simp [he]
  have hnot : ¬ (detection.bestMatch.label ≠ "unknown" ∧
          JSNumber.lt detection.bestMatch.distance zeroPointSix = true) →
      forEachCallback captured speechAvailable detection w = w := by
    intro h
    rw [← eligible_iff] at h
    simp [forEachCallback, h]
  refine ⟨hiff, hnot, ?_, ?_, ?_, ?_, ?_⟩
  · intro q hq
    rw [hiff, hq]
    simp [JSNumber.lt, zeroPointSix]
  · intro hnan
    apply hnot
    rw [hnan]
    simp [JSNumber.lt, zeroPointSix]
  · intro frame
    exact detectFaces_calls captured speechAvailable frame w
  · intro frames hm hl
    have hguard : (captured.modelsLoaded && captured.labeledFaceDescriptors.isSome) = true := by
      simp [hm, hl]
    have h := foldl_detectFaces_calls captured speechAvailable hguard frames w
    simpa [handleVideoPlay, hm, eligible] using h
  · intro refsPresent frames n hn
    unfold handleVideoPlay at hn
    split_ifs at hn
    · exact Or.inl hn
    · exact Or.inl hn
    · rcases foldl_detectFaces_spoken_mem captured speechAvailable n frames w hn with h | h
      · exact Or.inl h
      · obtain ⟨f, hf, d, hd, h1, h2⟩ := h
        exact Or.inr ⟨f, hf, d, hd, h1, (eligible_iff _).1 h2⟩

/-- Witness for C5: of the detections "badhusha" at 0.4, "unknown" at 0.7, "abhishek" at
exactly the double 0.6 and "abhishek" at NaN, a run of `detectFaces` calls `speakName` for
"badhusha" only. -/
theorem speakName_invoked_iff_eligible_witness :
    (detectFaces readyState true mixedFrame (initialWorld Nat)).speakNameCalls
      = ["badhusha"] := by
  have h := (speakName_invoked_iff_eligible readyState true
    { bestMatch := { label := "unknown", distance := JSNumber.finite 0.7 }, clock := 1 }
    (initialWorld Nat)).2.2.2.2.1 mixedFrame
  rw [h]
  decide!

/-! ## Cooldown within one detection loop -/

/-- C1 fails on the code: in one detection loop "badhusha" is greeted at 1700000000000 and
again 30000 ms later, although the state has recorded the first greeting by then; the loop
keeps reading the `lastSpokenTimes` of the render that started it. -/
theorem cooldown_not_enforced_within_loop :
    (handleVideoPlay readyState true true twoFrames
        { initialWorld Nat with state := readyState }).spoken
      = [{ name := "badhusha", time := 1700000000000, text := "Hi sir, how are you?" },
         { name := "badhusha", time := 1700000030000, text := "Hi sir, how are you?" }] ∧
    (handleVideoPlay readyState true true (twoFrames.take 1)
        { initialWorld Nat with state := readyState }).state.lastSpokenTimes "badhusha"
      = some 1700000000000 := by
  decide!

/-! ## The reference-set build -/

theorem processImage_fst {δ : Type} (label : String) (i : Nat) (o : ImageOutcome δ)
    (acc : List δ × List (String × Nat)) :
    (processImage label i o acc).1 = acc.1 ++ (descriptorOf o).toList := by
  cases o <;> simp [processImage, descriptorOf]

theorem foldl_processImage_fst {δ : Type} (outcome : String → Nat → ImageOutcome δ)
    (label : String) (is : List Nat) :
    ∀ acc : List δ × List (String × Nat),
      (is.foldl (fun a i => processImage label i (outcome label i) a) acc).1
        = acc.1 ++ is.filterMap (fun i => descriptorOf (outcome label i)) := by
  induction is with
  | nil => intro acc; simp
  | cons i is ih =>
    intro acc
    rw [List.foldl_cons, ih, processImage_fst]
    cases h : descriptorOf (outcome label i) <;> simp [List.filterMap_cons, h]

theorem processLabel_fst {δ : Type} (outcome : String → Nat → ImageOutcome δ) (label : String)
    (acc : List (LabeledFaceDescriptors δ) × List (String × Nat)) :
    (processLabel outcome label acc).1
      = acc.1 ++ referenceSetSpec [label] outcome := by
  have h := foldl_processImage_fst outcome label imageIndices ([], acc.2)
  simp only [List.nil_append] at h
  unfold processLabel
  simp only [h]
  cases hd : descriptorsOfLabel outcome label with
  | nil =>
    have hd2 : List.filterMap (fun i => descriptorOf (outcome label i)) imageIndices = [] := hd
    simp [referenceSetSpec, hd, hd2]
  | cons x xs =>
    have hd2 : List.filterMap (fun i => descriptorOf (outcome label i)) imageIndices
        = x :: xs := hd
    simp [referenceSetSpec, hd, hd2]

theorem referenceSetSpec_cons {δ : Type} (outcome : String → Nat → ImageOutcome δ)
    (l : String) (ls : List String) :
    referenceSetSpec (l :: ls) outcome
      = referenceSetSpec [l] outcome ++ referenceSetSpec ls outcome := by
  unfold referenceSetSpec
  by_cases h : (descriptorsOfLabel outcome l).isEmpty = true <;> simp [List.filterMap_cons, h]

theorem foldl_processLabel_fst {δ : Type} (outcome : String → Nat → ImageOutcome δ)
    (ls : List String) :
    ∀ acc : List (LabeledFaceDescriptors δ) × List (String × Nat),
      (ls.foldl (fun a l => processLabel outcome l a) acc).1
        = acc.1 ++ referenceSetSpec ls outcome := by
  induction ls with
  | nil => intro acc; simp [referenceSetSpec]
  | cons l ls ih =>
    intro acc
    rw [List.foldl_cons, ih, processLabel_fst, List.append_assoc, ← referenceSetSpec_cons]

theorem referenceSetSpec_ne_nil {δ : Type} (ls : List String)
    (outcome : String → Nat → ImageOutcome δ)
    (h : ∃ l ∈ ls, ∃ i ∈ imageIndices, ∃ d, outcome l i = ImageOutcome.descriptor d) :
    referenceSetSpec ls outcome ≠ [] := by
  obtain ⟨l, hl, i, hi, d, hd⟩ := h
  have hne : descriptorsOfLabel outcome l ≠ [] := by
    intro hnil
    have hmem : d ∈ descriptorsOfLabel outcome l :=
      List.mem_filterMap.2 ⟨i, hi, by simp [hd, descriptorOf]⟩
    rw [hnil] at hmem
    exact List.not_mem_nil _ hmem
  intro hnil
  have hmem : ({ label := l, descriptors := descriptorsOfLabel outcome l }
      : LabeledFaceDescriptors δ) ∈ referenceSetSpec ls outcome :=
    List.mem_filterMap.2 ⟨l, hl, by simp [List.isEmpty_iff, hne]⟩
  rw [hnil] at hmem
  exact List.not_mem_nil _ hmem

theorem referenceSetSpec_eq_nil {δ : Type} (ls : List String)
    (outcome : String → Nat → ImageOutcome δ)
    (h : ∀ l ∈ ls, ∀ i ∈ imageIndices, descriptorOf (outcome l i) = none) :
    referenceSetSpec ls outcome = [] := by
  unfold referenceSetSpec
  rw [List.filterMap_eq_nil_iff]
  intro l hl
  have : descriptorsOfLabel outcome l = [] := by
    unfold descriptorsOfLabel
    rw [List.filterMap_eq_nil_iff]
    exact h l hl
  simp [this]

/-- C7: if at least one candidate image of one label yields a descriptor, then whatever
happens to the other images `loadLabeledImages` (for any list of labels, `labels`
included) completes normally, sets no error, and
stores exactly the reference set of the specification: the labels with at least one
descriptor, in label order, each with its descriptors in image-index order. -/
theorem loadLabeledImages_stores_reference_set {δ : Type} (ls : List String)
    (outcome : String → Nat → ImageOutcome δ) (w : World δ)
    (h : ∃ l ∈ ls, ∃ i ∈ imageIndices, ∃ d, outcome l i = ImageOutcome.descriptor d) :
    (loadLabeledImagesFor ls outcome w).2 = Except.ok () ∧
    (loadLabeledImagesFor ls outcome w).1.state.labeledFaceDescriptors
      = some (referenceSetSpec ls outcome) ∧
    referenceSetSpec ls outcome ≠ [] ∧
    (loadLabeledImagesFor ls outcome w).1.state.error = w.state.error := by
  have hne := referenceSetSpec_ne_nil ls outcome h
  have hf := foldl_processLabel_fst outcome ls ([], w.liveObjectURLs)
  simp only [List.nil_append] at hf
  have hpos : (referenceSetSpec ls outcome).length > 0 := List.length_pos.2 hne
  simp [loadLabeledImagesFor, loadLabeledImagesTry, hf, hpos, hne]

/-- Witness for C7: "a" with two good images, "b" with none, gives only "a". -/
theorem loadLabeledImages_stores_reference_set_witness :
    (loadLabeledImagesFor ["a", "b"] outcomeAB (initialWorld Nat)).2 = Except.ok () ∧
    (loadLabeledImagesFor ["a", "b"] outcomeAB (initialWorld Nat)).1.state.labeledFaceDescriptors
      = some [{ label := "a", descriptors := [11, 12] }] := by
  have h := loadLabeledImages_stores_reference_set ["a", "b"] outcomeAB (initialWorld Nat)
    ⟨"a", by decide, 1, by decide, 11, by decide⟩
  refine ⟨h.1, ?_⟩
  rw [h.2.1]
  decide

/-! ## Start-up without reference data -/

theorem foldl_detectFaces_of_no_data {δ : Type} (captured : ComponentState δ) (avail : Bool)
    (hnone : captured.labeledFaceDescriptors = none) (frames : List Frame) :
    ∀ w : World δ, frames.foldl (fun acc f => detectFaces captured avail f acc) w = w := by
  induction frames with
  | nil => intro w; rfl
  | cons f fs ih =>
    intro w
    rw [List.foldl_cons, ih]
    simp [detectFaces, hnone]

theorem handleVideoPlay_of_no_data {δ : Type} (captured : ComponentState δ)
    (refsPresent avail : Bool) (hnone : captured.labeledFaceDescriptors = none)
    (frames : List Frame) (w : World δ) :
    handleVideoPlay captured refsPresent avail frames w = w := by
  unfold handleVideoPlay
  split_ifs
  · rfl
  · rfl
  · exact foldl_detectFaces_of_no_data captured avail hnone frames w

/-- C8, as amended: if no candidate image of any label yields a descriptor, then the `try`
block of `loadLabeledImages` ends in the error "No valid face descriptors were created"
and `loadLabeledImages` catches it itself: it completes normally for `loadModels`, sets the
error state to "Failed to load face recognition data" and stores no reference set.  After
`loadModels` (all nets loaded, no reference set stored before) the error is still set, the
render no longer reaches the video element, and a detection loop started from that state
changes nothing: no face is matched and `speakName` is never called. -/
theorem loadModels_without_reference_data {δ : Type} (ls : List String)
    (outcome : String → Nat → ImageOutcome δ) (w : World δ)
    (hnone : w.state.labeledFaceDescriptors = none)
    (h : ∀ l ∈ ls, ∀ i ∈ imageIndices, descriptorOf (outcome l i) = none) :
    (loadLabeledImagesTry ls outcome w).2
      = Except.error "No valid face descriptors were created" ∧
    (loadLabeledImagesFor ls outcome w).2 = Except.ok () ∧
    (loadLabeledImagesFor ls outcome w).1.state.error
      = some "Failed to load face recognition data" ∧
    (loadLabeledImagesFor ls outcome w).1.state.labeledFaceDescriptors = none ∧
    (loadModelsFor ls allNetsLoaded outcome w).state.error
      = some "Failed to load face recognition data" ∧
    (loadModelsFor ls allNetsLoaded outcome w).state.labeledFaceDescriptors = none ∧
    rendersVideo (loadModelsFor ls allNetsLoaded outcome w).state = false ∧
    (∀ (refsPresent speechAvailable : Bool) (frames : List Frame) (v : World δ),
      handleVideoPlay (loadModelsFor ls allNetsLoaded outcome w).state refsPresent
        speechAvailable frames v = v) := by
  have hnil := referenceSetSpec_eq_nil ls outcome h
  have hf := foldl_processLabel_fst outcome ls ([], w.liveObjectURLs)
  simp only [List.nil_append, hnil] at hf
  have hnone2 : (loadModelsFor ls allNetsLoaded outcome w).state.labeledFaceDescriptors
      = none := by
    simp [loadModelsFor, allNetsLoaded, loadLabeledImagesFor, loadLabeledImagesTry, hf,
      startVideo, hnone]
  refine ⟨?_, ?_, ?_, ?_, ?_, hnone2, ?_, ?_⟩
  · simp [loadLabeledImagesTry, hf]
  · simp [loadLabeledImagesFor, loadLabeledImagesTry, hf]
  · simp [loadLabeledImagesFor, loadLabeledImagesTry, hf]
  · simp [loadLabeledImagesFor, loadLabeledImagesTry, hf, hnone]
  · simp [loadModelsFor, allNetsLoaded, loadLabeledImagesFor, loadLabeledImagesTry, hf,
      startVideo]
  · simp [loadModelsFor, allNetsLoaded, loadLabeledImagesFor, loadLabeledImagesTry, hf,
      startVideo, rendersVideo]
  · intro refsPresent speechAvailable frames v
    exact handleVideoPlay_of_no_data _ refsPresent speechAvailable hnone2 frames v

/-- Witness for C8: no image of "badhusha" or "abhishek" is found. -/
theorem loadModels_without_reference_data_witness :
    (loadLabeledImagesFor labels (fun _ _ => (ImageOutcome.notFound : ImageOutcome Nat))
        (initialWorld Nat)).1.state.error
      = some "Failed to load face recognition data" :=
  (loadModels_without_reference_data labels (fun _ _ => ImageOutcome.notFound)
    (initialWorld Nat) rfl (by intro l _ i _; rfl)).2.2.1

/-- Counterexample to C8 as stated: when no image of "badhusha" or "abhishek" is found,
`loadLabeledImages` completes normally for its caller, and `loadModels` goes on to set
`modelsLoaded` to true and to call `startVideo`. -/
theorem loadModels_proceeds_without_reference_data :
    (loadLabeledImages (fun _ _ => (ImageOutcome.notFound : ImageOutcome Nat))
        (initialWorld Nat)).2 = Except.ok () ∧
    (loadModels allNetsLoaded (fun _ _ => (ImageOutcome.notFound : ImageOutcome Nat))
        (initialWorld Nat)).state.modelsLoaded = true ∧
    (loadModels allNetsLoaded (fun _ _ => (ImageOutcome.notFound : ImageOutcome Nat))
        (initialWorld Nat)).startVideoCalls = 1 :=
  ⟨rfl, rfl, rfl⟩

/-! ## Object URLs -/

/-- C9 fails on the code: when `faceapi.fetchImage` rejects for image 1 of "badhusha", the
object URL created for it is still live when the build has ended (and the same when the
detection call rejects), while the URLs of the images that were processed are revoked. -/
theorem object_url_live_after_rejection :
    (loadLabeledImages outcomeUndecodable (initialWorld Nat)).1.liveObjectURLs
      = [("badhusha", 1)] ∧
    (processImage "badhusha" 1 (ImageOutcome.detectThrows : ImageOutcome Nat) ([], [])).2
      = [("badhusha", 1)] ∧
    (processImage "badhusha" 1 (ImageOutcome.descriptor 7 : ImageOutcome Nat) ([], [])).2
      = [] := by
  decide

end FaceRec
